import Mathlib

/-!
Verification development for the real-time audio/transport pipeline:
voice-activity detection (`VoiceActivityDetector`), the WebSocket transport
(`WebSocketClient`), and the playback scheduler.  Each definition is a
shallow embedding of the corresponding source function; machine floats are
modelled exactly over `ℚ` (and `ℝ` where a square root occurs), and the
external inputs of each periodic analysis tick (the measured RMS level and
the frequency-bin snapshot delivered by the analyser, plus the wall clock)
are passed as explicit arguments.
-/

/-! ## Voice activity detector (VAD) -/

/-- The four states of the VAD state machine. -/
inductive VADState where
  | idle
  | calibrating
  | detecting
  | stopped
deriving DecidableEq, Repr

/-- Configuration record of the detector (`VADConfig` in the source).
Durations are in milliseconds, frequencies in Hz; floats are modelled as
rationals. -/
structure VADConfig where
  fftSize : ℕ
  rmsThreshold : ℚ
  speechBandSNR : ℚ
  sampleRate : ℚ
  updateInterval : ℚ
  minimumSpeechDuration : ℚ
  hangoverTime : ℚ
  smoothingTimeConstant : ℚ
  speechBandRange : ℚ × ℚ
  noiseBandRange : ℚ × ℚ
deriving DecidableEq, Repr

/-- The default configuration built by the `VoiceActivityDetector`
constructor. -/
def defaultVADConfig : VADConfig where
  fftSize := 1024
  rmsThreshold := 3/100
  speechBandSNR := 5/2
  sampleRate := 24000
  updateInterval := 30
  minimumSpeechDuration := 100
  hangoverTime := 300
  smoothingTimeConstant := 2/5
  speechBandRange := (300, 3400)
  noiseBandRange := (80, 300)

/-- Mutable state of a `VoiceActivityDetector` instance: the (runtime
tunable) configuration, the detection state machine, the speech debounce
timestamps, and the calibration accumulator.  The sentinel value `0` for
`speechStartTime`/`speechEndTime` means "unset", exactly as in the source. -/
structure VoiceActivityDetector where
  config : VADConfig
  state : VADState
  isSpeaking : Bool
  speechStartTime : ℚ
  speechEndTime : ℚ
  noiseFloorRMS : ℚ
  noiseFloorFrequency : List ℚ
  calibrationSamples : ℕ
  calibrationTarget : ℕ
  speechBandNoiseFloor : ℚ
  noiseBandNoiseFloor : ℚ
deriving DecidableEq, Repr

/-- A freshly constructed detector (field initialisers of the class). -/
def initialVAD (cfg : VADConfig) : VoiceActivityDetector where
  config := cfg
  state := VADState.idle
  isSpeaking := false
  speechStartTime := 0
  speechEndTime := 0
  noiseFloorRMS := 0
  noiseFloorFrequency := []
  calibrationSamples := 0
  calibrationTarget := 100
  speechBandNoiseFloor := 0
  noiseBandNoiseFloor := 0

/-- State changes performed by a successful `startDetection` call: allocate
the frequency buffer (`frequencyBinCount = fftSize / 2` zeroes) and enter
calibration.  The audio-graph plumbing is external I/O and is not part of
the state model.  An already-detecting instance returns unchanged. -/
def VoiceActivityDetector.startDetection (v : VoiceActivityDetector) :
    VoiceActivityDetector :=
  if v.state = VADState.detecting then v
  else
    { v with
      state := VADState.calibrating
      noiseFloorFrequency := List.replicate (v.config.fftSize / 2) 0
      calibrationSamples := 0
      speechBandNoiseFloor := 0
      noiseBandNoiseFloor := 0 }

/-- Mean normalised magnitude of `data` between the FFT bins covering
`[minFreq, maxFreq]`: the loop body shared by `calculateBandEnergy` and
`calculateCalibratedBandEnergy` (bins are magnitudes on the byte scale,
normalised by 255). -/
def bandEnergy (sampleRate : ℚ) (data : List ℚ) (minFreq maxFreq : ℚ) : ℚ :=
  let nyquist := sampleRate / 2
  let binCount := data.length
  let minBin := (⌊minFreq / nyquist * binCount⌋).toNat
  let maxBin := (⌈maxFreq / nyquist * binCount⌉).toNat
  let hi := min maxBin binCount
  let idxs := List.range' minBin (hi - minBin)
  let count := idxs.length
  let sum := (idxs.map (fun i => data.getD i 0 / 255)).sum
  if 0 < count then sum / count else 0

/-- `calculateBandEnergy` of the source, applied to a byte-valued frequency
snapshot. -/
def VoiceActivityDetector.calculateBandEnergy (v : VoiceActivityDetector)
    (frequencyData : List ℕ) (minFreq maxFreq : ℚ) : ℚ :=
  bandEnergy v.config.sampleRate (frequencyData.map (fun n => (n : ℚ)))
    minFreq maxFreq

/-- `calculateCalibratedBandEnergy` of the source: the same bin loop over
the accumulated (already averaged) noise-floor magnitudes. -/
def VoiceActivityDetector.calculateCalibratedBandEnergy
    (v : VoiceActivityDetector) (minFreq maxFreq : ℚ) : ℚ :=
  bandEnergy v.config.sampleRate v.noiseFloorFrequency minFreq maxFreq

/-- External inputs of one analysis tick: the measured RMS level of the
time-domain buffer, the frequency-bin snapshot, and the wall-clock
timestamp (`Date.now()`). -/
structure TickIn where
  rms : ℚ
  freq : List ℕ
  now : ℚ
deriving DecidableEq, Repr

/-- The hybrid detection predicate of `analyzeAudio`: RMS gate combined
with the speech-band boost over the calibrated baseline. -/
def VoiceActivityDetector.voiceDetected (v : VoiceActivityDetector)
    (t : TickIn) : Bool :=
  let speechBandEnergy := v.calculateBandEnergy t.freq
    v.config.speechBandRange.1 v.config.speechBandRange.2
  let noiseBandEnergy := v.calculateBandEnergy t.freq
    v.config.noiseBandRange.1 v.config.noiseBandRange.2
  let speechBoost :=
    if 0 < v.speechBandNoiseFloor then speechBandEnergy / v.speechBandNoiseFloor
    else speechBandEnergy
  let rmsAboveThreshold := decide (v.config.rmsThreshold < t.rms)
  let frequencyIndicatesSpeech :=
    decide (v.config.speechBandSNR < speechBoost) ||
      (decide (noiseBandEnergy < speechBandEnergy) &&
        decide ((6/5 : ℚ) < speechBoost))
  (rmsAboveThreshold && frequencyIndicatesSpeech) ||
    (decide (v.config.speechBandSNR * (3/2) < speechBoost) &&
      decide (v.config.rmsThreshold * (7/10) < t.rms))

/-- `updateCalibration`: accumulate the RMS and per-bin magnitudes; once
the sample counter reaches the target, average them, derive the dynamic
RMS threshold `min maxThreshold (max rmsThreshold (max minThreshold
(noiseFloorRMS * 1.8)))`, compute the band baselines, and enter detection. -/
def VoiceActivityDetector.updateCalibration (v : VoiceActivityDetector)
    (rms : ℚ) (frequencyData : List ℕ) : VoiceActivityDetector :=
  let nfRMS := v.noiseFloorRMS + rms
  let nfFreq := v.noiseFloorFrequency.mapIdx
    (fun i a => a + ((frequencyData.getD i 0 : ℕ) : ℚ))
  let samples := v.calibrationSamples + 1
  if v.calibrationTarget ≤ samples then
    let meanRMS := nfRMS / (samples : ℚ)
    let meanFreq := nfFreq.map (fun a => a / (samples : ℚ))
    let minThreshold : ℚ := 2/100
    let maxThreshold : ℚ := 12/100
    let dynamicThreshold :=
      min maxThreshold
        (max v.config.rmsThreshold (max minThreshold (meanRMS * (9/5))))
    let v1 :=
      { v with
        noiseFloorRMS := meanRMS
        noiseFloorFrequency := meanFreq
        calibrationSamples := samples
        config := { v.config with rmsThreshold := dynamicThreshold } }
    { v1 with
      speechBandNoiseFloor := v1.calculateCalibratedBandEnergy
        v1.config.speechBandRange.1 v1.config.speechBandRange.2
      noiseBandNoiseFloor := v1.calculateCalibratedBandEnergy
        v1.config.noiseBandRange.1 v1.config.noiseBandRange.2
      state := VADState.detecting }
  else
    { v with
      noiseFloorRMS := nfRMS
      noiseFloorFrequency := nfFreq
      calibrationSamples := samples }

/-- Result of one `analyzeAudio` tick: the new detector state and which
callbacks fired (`onSpeechStart`, `onSpeechEnd`, `onVADUpdate`). -/
structure TickResult where
  vad : VoiceActivityDetector
  speechStartFired : Bool
  speechEndFired : Bool
  updateFired : Bool
deriving Repr

/-- The debounced speech state machine of `analyzeAudio` (the code after
the calibration early-return), followed by the undebounced `onVADUpdate`
callback. -/
def VoiceActivityDetector.detectStep (v : VoiceActivityDetector)
    (t : TickIn) : TickResult :=
  if v.voiceDetected t then
    if v.isSpeaking = false then
      if v.speechStartTime = 0 then
        ⟨{ v with speechStartTime := t.now }, false, false, true⟩
      else if v.config.minimumSpeechDuration ≤ t.now - v.speechStartTime then
        ⟨{ v with isSpeaking := true, speechEndTime := 0 }, true, false, true⟩
      else ⟨v, false, false, true⟩
    else ⟨{ v with speechEndTime := 0 }, false, false, true⟩
  else
    if v.isSpeaking then
      if v.speechEndTime = 0 then
        ⟨{ v with speechEndTime := t.now }, false, false, true⟩
      else if v.config.hangoverTime ≤ t.now - v.speechEndTime then
        ⟨{ v with isSpeaking := false, speechStartTime := 0 }, false, true, true⟩
      else ⟨v, false, false, true⟩
    else ⟨{ v with speechStartTime := 0 }, false, false, true⟩

/-- One `analyzeAudio` tick: a calibrating detector accumulates the sample
and returns before the speech state machine and the update callback; any
other state runs the detection step. -/
def VoiceActivityDetector.analyzeAudio (v : VoiceActivityDetector)
    (t : TickIn) : TickResult :=
  if v.state = VADState.calibrating then
    ⟨v.updateCalibration t.rms t.freq, false, false, false⟩
  else v.detectStep t

/-- `recalibrate`: from the detecting state, zero the sample counter and
re-enter calibration; in every other state do nothing. -/
def VoiceActivityDetector.recalibrate (v : VoiceActivityDetector) :
    VoiceActivityDetector :=
  if v.state = VADState.detecting then
    { v with state := VADState.calibrating, calibrationSamples := 0 }
  else v

/-- Run a sequence of analysis ticks; the booleans collect whether any
speech-start, speech-end, or update callback fired along the run. -/
def runVAD (v : VoiceActivityDetector) :
    List TickIn → VoiceActivityDetector × Bool × Bool × Bool
  | [] => (v, false, false, false)
  | t :: ts =>
    let r := v.analyzeAudio t
    let rest := runVAD r.vad ts
    (rest.1, r.speechStartFired || rest.2.1, r.speechEndFired || rest.2.2.1,
      r.updateFired || rest.2.2.2)

/-- `noLongFlaggedRun f minDur pending ts` states that, processing `ts`
with per-tick flag `f` while `pending` records the timestamp of the first
flagged tick of the current contiguous flagged run (`0` when none), no
flagged tick ever lies `minDur` or more after the start of its run: the
voice-detected condition never holds on contiguous ticks spanning the
minimum speech duration. -/
def noLongFlaggedRun (f : TickIn → Bool) (minDur : ℚ) :
    ℚ → List TickIn → Bool
  | _, [] => true
  | pending, t :: ts =>
    if f t then
      (decide (pending = 0) || decide (t.now - pending < minDur)) &&
        noLongFlaggedRun f minDur (if pending = 0 then t.now else pending) ts
    else noLongFlaggedRun f minDur 0 ts

/-- A byte sample converted from `0..255` to `[-1, 1]`. -/
def normalizedSample (d : ℕ) : ℚ := ((d : ℚ) - 128) / 128

/-- Mean of squares of the byte samples after normalisation to `[-1, 1]`
(the loop of `calculateRMS` before the square root). -/
def meanSquare (data : List ℕ) : ℚ :=
  ((data.map (fun d => normalizedSample d * normalizedSample d)).sum)
    / data.length

/-- `calculateRMS`: root mean square of the normalised time-domain
samples. -/
noncomputable def calculateRMS (data : List ℕ) : ℝ :=
  Real.sqrt ((meanSquare data : ℚ) : ℝ)

/-! ## WebSocket transport -/

/-- `ConnectionState` of the transport. -/
inductive ConnState where
  | connecting
  | connected
  | disconnecting
  | disconnected
deriving DecidableEq, Repr

/-- A wire message: the routing type and payload are abstracted to
numbers; `timestamp` is `none` when absent (`some 0` is also falsy for the
stamping check, as in JavaScript). -/
structure WSMessage where
  mtype : ℕ
  payload : ℕ
  timestamp : Option ℕ
deriving DecidableEq, Repr

/-- The timestamp stamping at the top of `send`: a missing (or zero, hence
falsy) timestamp is replaced by the current time. -/
def stampMessage (now : ℕ) (m : WSMessage) : WSMessage :=
  match m.timestamp with
  | none => { m with timestamp := some now }
  | some 0 => { m with timestamp := some now }
  | some _ => m

/-- State of a `WebSocketClient`: `ws = none` models a null socket,
`ws = some true` a socket whose `readyState` is `OPEN`, `ws = some false`
a socket in any other ready state.  `reconnectTimer` holds the delay of
the single pending reconnect timer, if any. -/
structure WebSocketClient where
  ws : Option Bool
  connectionState : ConnState
  messageQueue : List WSMessage
  shouldReconnect : Bool
  manualDisconnect : Bool
  reconnectAttempts : ℕ
  reconnectTimer : Option ℕ
deriving DecidableEq, Repr

/-- A freshly constructed client (field initialisers). -/
def initialClient : WebSocketClient where
  ws := none
  connectionState := ConnState.disconnected
  messageQueue := []
  shouldReconnect := true
  manualDisconnect := false
  reconnectAttempts := 0
  reconnectTimer := none

/-- The `maxReconnectDelay` field: 30 seconds, never reassigned. -/
def WebSocketClient.maxReconnectDelay : ℕ := 30000

/-- The `baseDelay` local of `handleReconnect`: 1 second. -/
def WebSocketClient.baseDelay : ℕ := 1000

/-- `handleReconnect`: when reconnection is enabled and the disconnect was
not manual, compute the exponential-backoff delay
`min (baseDelay * 2 ^ attempts) maxReconnectDelay`, increment the attempt
counter, and replace the pending timer.  Returns the scheduled delay, or
`none` when no reconnect was scheduled. -/
def WebSocketClient.handleReconnect (c : WebSocketClient) :
    WebSocketClient × Option ℕ :=
  if c.shouldReconnect = false || c.manualDisconnect then (c, none)
  else
    let delay :=
      min (WebSocketClient.baseDelay * 2 ^ c.reconnectAttempts)
        WebSocketClient.maxReconnectDelay
    ({ c with
        reconnectAttempts := c.reconnectAttempts + 1
        reconnectTimer := some delay }, some delay)

/-- `send`: stamp the timestamp; if the socket exists and is `OPEN`,
serialise and transmit (the returned list), otherwise append to the
message queue. -/
def WebSocketClient.send (c : WebSocketClient) (now : ℕ) (m : WSMessage) :
    WebSocketClient × List WSMessage :=
  let m1 := stampMessage now m
  if c.ws = some true then (c, [m1])
  else ({ c with messageQueue := c.messageQueue ++ [m1] }, [])

/-- `send` applied to a list of messages in order, collecting everything
transmitted. -/
def WebSocketClient.sendAll (c : WebSocketClient) (now : ℕ)
    (ms : List WSMessage) : WebSocketClient × List WSMessage :=
  match ms with
  | [] => (c, [])
  | m :: rest =>
    let r := c.send now m
    let r2 := r.1.sendAll now rest
    (r2.1, r.2 ++ r2.2)

/-- `flushMessageQueue`: if the queue is nonempty, take a copy, clear the
field, and re-enter `send` on each queued message in FIFO order (so a
message that is still undeliverable is re-queued rather than lost). -/
def WebSocketClient.flushMessageQueue (c : WebSocketClient) (now : ℕ) :
    WebSocketClient × List WSMessage :=
  if c.messageQueue.length > 0 then
    let queue := c.messageQueue
    WebSocketClient.sendAll { c with messageQueue := [] } now queue
  else (c, [])

/-- The `ws.onopen` handler: the socket is now `OPEN`; transition to
connected, reset the reconnect-attempt counter, then flush the queue.
Returns the messages transmitted by the flush. -/
def WebSocketClient.openEvent (c : WebSocketClient) (now : ℕ) :
    WebSocketClient × List WSMessage :=
  let c1 :=
    { c with
      ws := some true
      connectionState := ConnState.connected
      reconnectAttempts := 0 }
  c1.flushMessageQueue now

/-- The `ws.onclose` handler: the socket is no longer open; transition to
disconnected; if the closure was unexpected (not a manual disconnect and
the client had been connected) and reconnection is enabled, schedule a
reconnect.  Returns the scheduled delay, if any. -/
def WebSocketClient.closeEvent (c : WebSocketClient) :
    WebSocketClient × Option ℕ :=
  let wasConnected := decide (c.connectionState = ConnState.connected)
  let c1 :=
    { c with ws := some false, connectionState := ConnState.disconnected }
  let isUnexpected := !c.manualDisconnect && wasConnected
  if isUnexpected && c1.shouldReconnect then c1.handleReconnect
  else (c1, none)

/-- `connect`: a no-op when already connected or connecting; otherwise
transition to connecting and clear the manual-disconnect flag, then create
the socket.  `ctorThrows` tells whether the `WebSocket` constructor throws
synchronously: on a throw the state falls back to disconnected and
`handleReconnect` runs; otherwise a not-yet-open socket is installed.
Returns the reconnect delay scheduled, if any. -/
def WebSocketClient.connect (c : WebSocketClient) (ctorThrows : Bool) :
    WebSocketClient × Option ℕ :=
  if c.connectionState = ConnState.connected ∨
      c.connectionState = ConnState.connecting then (c, none)
  else
    let c1 :=
      { c with connectionState := ConnState.connecting, manualDisconnect := false }
    if ctorThrows then
      WebSocketClient.handleReconnect
        { c1 with connectionState := ConnState.disconnected }
    else ({ c1 with ws := some false }, none)

/-- Delays scheduled by `k` successive `handleReconnect` invocations with
no intervening successful open. -/
def reconnectDelays (c : WebSocketClient) : ℕ → List ℕ
  | 0 => []
  | Nat.succ k =>
    match c.handleReconnect with
    | (c1, some d) => d :: reconnectDelays c1 k
    | (_, none) => []

/-! ## Playback scheduler -/

/-- State of the audio playback module: whether the playback
`AudioContext` exists, the timeline cursor `nextPlayTime`, and the
identifiers of the currently active buffer sources. -/
structure AudioPlayback where
  initialized : Bool
  nextPlayTime : ℚ
  activeSources : List ℕ
deriving DecidableEq, Repr

/-- Module state at load: no context, cursor at zero, no sources. -/
def initialPlayback : AudioPlayback where
  initialized := false
  nextPlayTime := 0
  activeSources := []

/-- `getAudioContext` / `initializeAudioContext`: on first use create the
context and set `nextPlayTime` to the current output-clock time. -/
def getAudioContextState (p : AudioPlayback) (currentTime : ℚ) :
    AudioPlayback :=
  if p.initialized then p
  else { p with initialized := true, nextPlayTime := currentTime }

/-- `playAudioChunk` on a decoded chunk of `sampleCount` PCM16 samples at
the fixed 24 kHz output rate: register the new source, start it at
`max currentTime nextPlayTime`, and advance `nextPlayTime` by the chunk
duration.  Returns the computed start time. -/
def playAudioChunk (p : AudioPlayback) (sampleCount : ℕ) (currentTime : ℚ)
    (srcId : ℕ) : AudioPlayback × ℚ :=
  let p1 := getAudioContextState p currentTime
  let duration : ℚ := (sampleCount : ℚ) / 24000
  let scheduleTime := max currentTime p1.nextPlayTime
  ({ p1 with
      activeSources := p1.activeSources ++ [srcId]
      nextPlayTime := scheduleTime + duration }, scheduleTime)

/-- `stopAudioPlayback` (barge-in): with no context it is a no-op;
otherwise stop every active source, clear the set, and pull
`nextPlayTime` back to the current output-clock time. -/
def stopAudioPlayback (p : AudioPlayback) (currentTime : ℚ) :
    AudioPlayback :=
  if p.initialized = false then p
  else { p with activeSources := [], nextPlayTime := currentTime }

/-! ## Supporting lemmas -/

/-- Each normalised squared sample is at most one when the raw sample fits
in a byte, so the mean of squares lies below one. -/
lemma meanSquare_le_one (data : List ℕ) (hb : ∀ d ∈ data, d ≤ 255) :
    meanSquare data ≤ 1 := by
  unfold meanSquare
  rcases Nat.eq_zero_or_pos data.length with h0 | hpos
  · rw [List.length_eq_zero.mp h0]
    norm_num
  · have hterms : ∀ x ∈ data.map
        (fun d => normalizedSample d * normalizedSample d),
        x ≤ 1 := by
      intro x hx
      obtain ⟨d, hd, rfl⟩ := List.mem_map.1 hx
      have h255 : (d : ℚ) ≤ 255 := by exact_mod_cast hb d hd
      have h0d : (0 : ℚ) ≤ (d : ℚ) := Nat.cast_nonneg d
      unfold normalizedSample
      nlinarith
    have hsum := List.sum_le_card_nsmul _ 1 hterms
    rw [List.length_map, nsmul_eq_mul, mul_one] at hsum
    rw [div_le_one (by exact_mod_cast hpos)]
    exact hsum

/-- The mean of squares is nonnegative. -/
lemma meanSquare_nonneg (data : List ℕ) : 0 ≤ meanSquare data := by
  unfold meanSquare
  apply div_nonneg _ (Nat.cast_nonneg _)
  apply List.sum_nonneg
  intro x hx
  obtain ⟨d, _, rfl⟩ := List.mem_map.1 hx
  exact mul_self_nonneg _

/-! ## Claim theorems -/

/-- Claim C9: for every input buffer of 8-bit unsigned samples (each
sample in `0..255`, and at least one sample, as the buffer is sized to the
configured FFT size), `calculateRMS` returns a value in the closed
interval `[0, 1]`; the result does not depend on any `VADConfig` field. -/
theorem calculateRMS_in_unit_interval (data : List ℕ)
    (_hne : 0 < data.length) (hb : ∀ d ∈ data, d ≤ 255) :
    0 ≤ calculateRMS data ∧ calculateRMS data ≤ 1 := by
  refine ⟨Real.sqrt_nonneg _, ?_⟩
  apply Real.sqrt_le_one.mpr
  exact_mod_cast meanSquare_le_one data hb

/-- Witness for C9 at the concrete buffer `[0, 255]`. -/
theorem calculateRMS_in_unit_interval_witness :
    0 < [0, 255].length ∧ (∀ d ∈ [0, 255], d ≤ 255) ∧
    0 ≤ calculateRMS [0, 255] ∧ calculateRMS [0, 255] ≤ 1 :=
  ⟨by decide, by decide,
    (calculateRMS_in_unit_interval [0, 255] (by decide) (by decide)).1,
    (calculateRMS_in_unit_interval [0, 255] (by decide) (by decide)).2⟩

/-- Claim C5: three chunks of `n1`, `n2`, `n3` samples scheduled
back-to-back with instant arrivals (output clock still at `0`) from the
idle timeline start at `0`, `d1`, `d1 + d2`, where `dI = nI / 24000`:
each chunk starts at `max currentTime nextPlayTime` and the cursor
advances by exactly the chunk duration, so playback has no gap and no
overlap. -/
theorem gapless_scheduling_three_chunks (n1 n2 n3 i1 i2 i3 : ℕ) :
    (playAudioChunk initialPlayback n1 0 i1).2 = 0 ∧
    (playAudioChunk (playAudioChunk initialPlayback n1 0 i1).1 n2 0 i2).2 =
      (n1 : ℚ) / 24000 ∧
    (playAudioChunk
      (playAudioChunk (playAudioChunk initialPlayback n1 0 i1).1 n2 0 i2).1
      n3 0 i3).2 = (n1 : ℚ) / 24000 + (n2 : ℚ) / 24000 := by
  have h1 : (0 : ℚ) ≤ (n1 : ℚ) / 24000 := by positivity
  have h2 : (0 : ℚ) ≤ (n1 : ℚ) / 24000 + (n2 : ℚ) / 24000 := by positivity
  refine ⟨?_, ?_, ?_⟩ <;>
    simp [playAudioChunk, getAudioContextState, initialPlayback,
      max_eq_right, h1, h2]

/-- Claim C8: `stopAudioPlayback` invoked on an initialised playback
system leaves no active source and pulls `nextPlayTime` back to the
current output-clock time, so any later chunk scheduled at a clock time
`t ≥` that moment starts exactly at `t`, not at the stale cursor. -/
theorem cancel_all_resets_schedule (p : AudioPlayback) (tc : ℚ)
    (hinit : p.initialized = true) :
    (stopAudioPlayback p tc).activeSources = [] ∧
    (stopAudioPlayback p tc).nextPlayTime = tc ∧
    ∀ (n i : ℕ) (t : ℚ), tc ≤ t →
      (playAudioChunk (stopAudioPlayback p tc) n t i).2 = t := by
  refine ⟨by simp [stopAudioPlayback, hinit], by simp [stopAudioPlayback, hinit], ?_⟩
  intro n i t ht
  simp [stopAudioPlayback, hinit, playAudioChunk, getAudioContextState,
    max_eq_left ht]

/-- Witness for C8: a playback state with two active sources and a future
cursor, cancelled at clock time `7`, reschedules at clock time `9`. -/
theorem cancel_all_resets_schedule_witness :
    (stopAudioPlayback ⟨true, 50, [1, 2]⟩ 7).activeSources = [] ∧
    (stopAudioPlayback ⟨true, 50, [1, 2]⟩ 7).nextPlayTime = 7 ∧
    (playAudioChunk (stopAudioPlayback ⟨true, 50, [1, 2]⟩ 7) 2400 9 3).2 = 9 := by
  obtain ⟨ha, hb, hc⟩ := cancel_all_resets_schedule ⟨true, 50, [1, 2]⟩ 7 rfl
  exact ⟨ha, hb, hc 2400 3 9 (by norm_num)⟩

/-- Claim C4 (amended): `recalibrate` from the detecting state resets the
sample counter to zero and re-enters calibration but leaves every other
field — in particular the accumulated RMS value and the per-bin frequency
magnitudes — unchanged; in any other state it changes nothing. -/
theorem recalibrate_resets_counter_only (v : VoiceActivityDetector) :
    (v.state = VADState.detecting →
      v.recalibrate =
        { v with state := VADState.calibrating, calibrationSamples := 0 }) ∧
    (v.state ≠ VADState.detecting → v.recalibrate = v) := by
  constructor <;> intro h <;> simp [VoiceActivityDetector.recalibrate, h]

/-- Witness for C4's amended theorem at a detecting instance carrying a
nonzero calibrated mean. -/
theorem recalibrate_resets_counter_only_witness :
    ({ initialVAD defaultVADConfig with
        state := VADState.detecting, noiseFloorRMS := 1/2
        : VoiceActivityDetector }).recalibrate =
      { initialVAD defaultVADConfig with
          state := VADState.calibrating, calibrationSamples := 0,
          noiseFloorRMS := 1/2 } :=
  (recalibrate_resets_counter_only _).1 (by decide)

/-- The concrete calibrating detector used in the C4 counterexample: one
tick away from completing calibration, with `49.95` of accumulated RMS. -/
def c4PreCal : VoiceActivityDetector :=
  { initialVAD defaultVADConfig with
      state := VADState.calibrating
      calibrationSamples := 99
      noiseFloorRMS := 999/20 }

/-- The detector of the C4 counterexample: `c4PreCal` after the analysis
tick that completes calibration, i.e. a detecting instance whose RMS
accumulator holds the calibrated mean `1/2`. -/
def c4Detector : VoiceActivityDetector := (c4PreCal.analyzeAudio ⟨1/20, [], 7⟩).vad

/-- Counterexample for C4 as stated: completing a calibration leaves the
RMS accumulator holding the calibrated mean (`1/2`), and `recalibrate`
from the resulting detecting state zeroes only the sample counter — the
running RMS accumulator stays at `1/2` instead of returning to its
initial zero value (and, likewise, the per-bin sums are not cleared). -/
theorem recalibrate_not_full_reset_cex :
    c4Detector.state = VADState.detecting ∧
    c4Detector.recalibrate.state = VADState.calibrating ∧
    c4Detector.recalibrate.calibrationSamples = 0 ∧
    c4Detector.recalibrate.noiseFloorRMS = 1/2 ∧
    ¬ c4Detector.recalibrate.noiseFloorRMS = 0 := by
  have hc4 : c4Detector.state = VADState.detecting ∧
      c4Detector.noiseFloorRMS = 1/2 := by
    unfold c4Detector c4PreCal
    simp [VoiceActivityDetector.analyzeAudio, VoiceActivityDetector.updateCalibration,
      initialVAD]
    norm_num
  refine ⟨hc4.1, ?_, ?_, ?_, ?_⟩ <;>
    simp [VoiceActivityDetector.recalibrate, hc4.1, hc4.2]

/-- On the calibration-completion step, the new RMS threshold is the
clamped maximum computed by `updateCalibration`, and the state machine
enters detection. -/
lemma updateCalibration_complete (v : VoiceActivityDetector) (rms : ℚ)
    (freq : List ℕ) (hdone : v.calibrationTarget ≤ v.calibrationSamples + 1) :
    (v.updateCalibration rms freq).state = VADState.detecting ∧
    (v.updateCalibration rms freq).config.rmsThreshold =
      min (12/100)
        (max v.config.rmsThreshold
          (max (2/100)
            ((v.noiseFloorRMS + rms) / ((v.calibrationSamples + 1 : ℕ) : ℚ) * (9/5)))) := by
  unfold VoiceActivityDetector.updateCalibration
  rw [if_pos hdone]
  exact ⟨rfl, rfl⟩

/-- Claim C1 (amended): on the analysis tick that completes a calibration
run, the dynamic RMS threshold always lies in `[minThreshold,
maxThreshold] = [0.02, 0.12]`, whatever RMS values were accumulated; it
is never below the statically configured `rmsThreshold` provided that
threshold does not itself exceed `maxThreshold` (a configured threshold
above `0.12` is clamped down to `0.12`). -/
theorem calibration_threshold_clamped (v : VoiceActivityDetector) (t : TickIn)
    (hcal : v.state = VADState.calibrating)
    (hdone : v.calibrationTarget ≤ v.calibrationSamples + 1) :
    (v.analyzeAudio t).vad.state = VADState.detecting ∧
    (2/100 : ℚ) ≤ (v.analyzeAudio t).vad.config.rmsThreshold ∧
    (v.analyzeAudio t).vad.config.rmsThreshold ≤ 12/100 ∧
    (v.config.rmsThreshold ≤ 12/100 →
      v.config.rmsThreshold ≤ (v.analyzeAudio t).vad.config.rmsThreshold) := by
  have hstep : (v.analyzeAudio t).vad = v.updateCalibration t.rms t.freq := by
    simp [VoiceActivityDetector.analyzeAudio, hcal]
  obtain ⟨h1, h2⟩ := updateCalibration_complete v t.rms t.freq hdone
  rw [hstep, h1, h2]
  refine ⟨rfl, ?_, min_le_left _ _, ?_⟩
  · exact le_min (by norm_num)
      ((le_max_left _ _).trans (le_max_right _ _))
  · intro h
    exact le_min h (le_max_left _ _)

/-- The calibrating detector used in the C1 counterexample and witness:
99 samples accumulated, statically configured threshold `0.2`. -/
def c1Pre : VoiceActivityDetector :=
  { initialVAD { defaultVADConfig with rmsThreshold := 1/5 } with
      state := VADState.calibrating
      calibrationSamples := 99 }

/-- Counterexample for C1 as stated: with a (valid, `0..1`-normalised)
configured `rmsThreshold` of `0.2` and a silent calibration run, the
dynamic threshold computed at completion is the clamp ceiling `0.12`,
which is strictly below the statically configured threshold. -/
theorem calibration_threshold_floor_cex :
    (c1Pre.analyzeAudio ⟨0, [], 7⟩).vad.state = VADState.detecting ∧
    (c1Pre.analyzeAudio ⟨0, [], 7⟩).vad.config.rmsThreshold <
      c1Pre.config.rmsThreshold := by
  have hstep : (c1Pre.analyzeAudio ⟨0, [], 7⟩).vad = c1Pre.updateCalibration 0 [] := by
    simp [VoiceActivityDetector.analyzeAudio, c1Pre]
  obtain ⟨h1, h2⟩ := updateCalibration_complete c1Pre 0 [] (by decide)
  rw [hstep, h1, h2]
  refine ⟨rfl, ?_⟩
  show min (12/100 : ℚ) _ < c1Pre.config.rmsThreshold
  have hnf : c1Pre.noiseFloorRMS = 0 := rfl
  have hth : c1Pre.config.rmsThreshold = 1/5 := rfl
  have hs : c1Pre.calibrationSamples = 99 := rfl
  rw [hnf, hth, hs]
  norm_num [min_def, max_def]

/-- The calibrating detector used in the C1 witness: default
configuration, one tick from completion. -/
def c1Cal : VoiceActivityDetector :=
  { initialVAD defaultVADConfig with
      state := VADState.calibrating
      calibrationSamples := 99 }

/-- Witness for C1's amended theorem at a concrete completion tick. -/
theorem calibration_threshold_clamped_witness :
    c1Cal.state = VADState.calibrating ∧
    c1Cal.calibrationTarget ≤ c1Cal.calibrationSamples + 1 ∧
    ((c1Cal.analyzeAudio ⟨0, [], 7⟩).vad.state = VADState.detecting ∧
     (2/100 : ℚ) ≤ (c1Cal.analyzeAudio ⟨0, [], 7⟩).vad.config.rmsThreshold ∧
     (c1Cal.analyzeAudio ⟨0, [], 7⟩).vad.config.rmsThreshold ≤ 12/100 ∧
     (c1Cal.config.rmsThreshold ≤ 12/100 →
       c1Cal.config.rmsThreshold ≤
         (c1Cal.analyzeAudio ⟨0, [], 7⟩).vad.config.rmsThreshold)) :=
  ⟨rfl, by decide, calibration_threshold_clamped c1Cal ⟨0, [], 7⟩ rfl (by decide)⟩

/-- Counterexample for C3 as stated: from a fresh client, a `connect`
whose socket is created without a synchronous throw but never opens, and
whose failure is delivered as a close event, ends the attempt disconnected
— with reconnection enabled and no manual disconnect — yet neither the
`connect` call nor the close handler schedules any reconnection attempt. -/
theorem open_failure_no_reconnect_cex :
    ((initialClient.connect false).1.connectionState = ConnState.connecting) ∧
    ((initialClient.connect false).2 = none) ∧
    ((initialClient.connect false).1.shouldReconnect = true) ∧
    ((initialClient.connect false).1.manualDisconnect = false) ∧
    (((initialClient.connect false).1.closeEvent).1.connectionState =
      ConnState.disconnected) ∧
    (((initialClient.connect false).1.closeEvent).2 = none) ∧
    (((initialClient.connect false).1.closeEvent).1.reconnectTimer = none) := by
  decide

/-- Claim C3 (amended): a connection-open failure schedules a reconnection
attempt only on the synchronous constructor-throw path of `connect`; an
open failure delivered as a close event schedules nothing, because the
close handler classifies a closure as unexpected — and reconnects — only
when the client had actually been Connected (and the disconnect was not
manual and reconnection is enabled). -/
theorem open_failure_reconnect_policy (c : WebSocketClient) :
    (c.connectionState ≠ ConnState.connected →
      c.connectionState ≠ ConnState.connecting →
      c.shouldReconnect = true →
      (c.connect true).2 = some (min (1000 * 2 ^ c.reconnectAttempts) 30000)) ∧
    (c.connectionState ≠ ConnState.connected → (c.closeEvent).2 = none) ∧
    (c.connectionState = ConnState.connected → c.manualDisconnect = false →
      c.shouldReconnect = true →
      (c.closeEvent).2 = some (min (1000 * 2 ^ c.reconnectAttempts) 30000)) := by
  refine ⟨?_, ?_, ?_⟩
  · intro h1 h2 h3
    simp [WebSocketClient.connect, h1, h2, WebSocketClient.handleReconnect, h3,
      WebSocketClient.baseDelay, WebSocketClient.maxReconnectDelay]
  · intro h1
    simp [WebSocketClient.closeEvent, h1]
  · intro h1 h2 h3
    simp [WebSocketClient.closeEvent, h1, h2, h3, WebSocketClient.handleReconnect,
      WebSocketClient.baseDelay, WebSocketClient.maxReconnectDelay]

/-- A connected client with clean flags, for the C3 witness. -/
def connectedClient : WebSocketClient :=
  { initialClient with ws := some true, connectionState := ConnState.connected }

/-- Witness for C3's amended theorem: a fresh client whose constructor
throws schedules a 1000 ms reconnect; its close event schedules nothing;
a connected client's unexpected close schedules a 1000 ms reconnect. -/
theorem open_failure_reconnect_policy_witness :
    (initialClient.connect true).2 = some 1000 ∧
    initialClient.closeEvent.2 = none ∧
    connectedClient.closeEvent.2 = some 1000 := by
  refine ⟨?_, (open_failure_reconnect_policy initialClient).2.1 (by decide), ?_⟩
  · have h := (open_failure_reconnect_policy initialClient).1
      (by decide) (by decide) rfl
    rw [h]; decide
  · have h := (open_failure_reconnect_policy connectedClient).2.2 rfl rfl rfl
    rw [h]; decide

/-- With reconnection enabled and no manual disconnect, `k` successive
reconnect schedulings starting from attempt counter `a` produce the
delays `min (1000 * 2 ^ (a + i)) 30000` for `i < k`. -/
lemma reconnectDelays_succ (c : WebSocketClient) (k : ℕ)
    (h1 : c.shouldReconnect = true) (h2 : c.manualDisconnect = false) :
    reconnectDelays c (k + 1) =
      min (1000 * 2 ^ c.reconnectAttempts) 30000 ::
        reconnectDelays
          { c with
              reconnectAttempts := c.reconnectAttempts + 1
              reconnectTimer :=
                some (min (1000 * 2 ^ c.reconnectAttempts) 30000) } k := by
  have hr : c.handleReconnect =
      ({ c with
          reconnectAttempts := c.reconnectAttempts + 1
          reconnectTimer :=
            some (min (1000 * 2 ^ c.reconnectAttempts) 30000) },
        some (min (1000 * 2 ^ c.reconnectAttempts) 30000)) := by
    simp [WebSocketClient.handleReconnect, h1, h2,
      WebSocketClient.baseDelay, WebSocketClient.maxReconnectDelay]
  rw [reconnectDelays, hr]

/-- With reconnection enabled and no manual disconnect, `k` successive
reconnect schedulings starting from attempt counter `a` produce the
delays `min (1000 * 2 ^ (a + i)) 30000` for `i < k`. -/
lemma reconnectDelays_formula (k : ℕ) :
    ∀ c : WebSocketClient, c.shouldReconnect = true →
      c.manualDisconnect = false →
      reconnectDelays c k =
        (List.range k).map
          (fun i => min (1000 * 2 ^ (c.reconnectAttempts + i)) 30000) := by
  induction k with
  | zero => intro c _ _; rfl
  | succ k ih =>
    intro c h1 h2
    rw [reconnectDelays_succ c k h1 h2]
    rw [ih { c with
        reconnectAttempts := c.reconnectAttempts + 1
        reconnectTimer :=
          some (min (1000 * 2 ^ c.reconnectAttempts) 30000) } h1 h2]
    rw [List.range_succ_eq_map, List.map_cons, List.map_map]
    congr 1
    dsimp only
    apply List.map_congr_left
    intro i _
    have he : c.reconnectAttempts + 1 + i = c.reconnectAttempts + (i + 1) := by
      omega
    simp [Function.comp, he]

/-- Claim C6: with no successful open in between, the scheduled reconnect
delays follow `min (1000 * 2 ^ attempts) 30000` with the attempt counter
starting at zero and incremented on each scheduling — concretely `1000,
2000, 4000, 8000, 16000, 30000, 30000, ...` ms — and a successful open
resets the counter to zero. -/
theorem reconnect_backoff_sequence (c : WebSocketClient) (k : ℕ)
    (h1 : c.shouldReconnect = true) (h2 : c.manualDisconnect = false)
    (h3 : c.reconnectAttempts = 0) :
    reconnectDelays c k =
      (List.range k).map (fun i => min (1000 * 2 ^ i) 30000) ∧
    ((List.range k).map (fun i => min (1000 * 2 ^ i) 30000) =
      (List.range k).map (fun i => if i < 5 then 1000 * 2 ^ i else 30000)) ∧
    reconnectDelays c 7 = [1000, 2000, 4000, 8000, 16000, 30000, 30000] ∧
    (c.handleReconnect.1.reconnectAttempts = c.reconnectAttempts + 1) ∧
    (∀ now : ℕ, (c.openEvent now).1.reconnectAttempts = 0) := by
  have hform : ∀ m : ℕ, reconnectDelays c m =
      (List.range m).map (fun i => min (1000 * 2 ^ i) 30000) := by
    intro m
    rw [reconnectDelays_formula m c h1 h2, h3]
    simp
  have hclosed : ∀ i : ℕ, min (1000 * 2 ^ i) 30000 =
      if i < 5 then 1000 * 2 ^ i else 30000 := by
    intro i
    by_cases h : i < 5
    · rw [if_pos h]
      interval_cases i <;> decide
    · rw [if_neg h]
      have h32 : 2 ^ 5 ≤ 2 ^ i := Nat.pow_le_pow_right (by norm_num) (by omega)
      have : 30000 ≤ 1000 * 2 ^ i := by
        calc (30000 : ℕ) ≤ 1000 * 2 ^ 5 := by norm_num
        _ ≤ 1000 * 2 ^ i := Nat.mul_le_mul_left _ h32
      omega
  refine ⟨hform k, ?_, ?_, ?_, ?_⟩
  · apply List.map_congr_left
    intro i _
    exact hclosed i
  · rw [hform 7]; decide
  · simp [WebSocketClient.handleReconnect, h1, h2]
  · intro now
    have hq : ∀ (ms : List WSMessage) (d : WebSocketClient) (n : ℕ),
        (d.sendAll n ms).1.reconnectAttempts = d.reconnectAttempts := by
      intro ms
      induction ms with
      | nil => intro d n; rfl
      | cons m rest ihm =>
        intro d n
        rw [WebSocketClient.sendAll]
        by_cases hws : d.ws = some true <;>
          simp [WebSocketClient.send, hws, ihm]
    by_cases hne : ((c.openEvent now).1.messageQueue = []) <;>
      simp [WebSocketClient.openEvent, WebSocketClient.flushMessageQueue] <;>
      split <;> simp [hq]

/-- Witness for C6 at a fresh client: the first seven scheduled delays. -/
theorem reconnect_backoff_sequence_witness :
    reconnectDelays initialClient 7 =
      [1000, 2000, 4000, 8000, 16000, 30000, 30000] ∧
    (∀ now : ℕ, (initialClient.openEvent now).1.reconnectAttempts = 0) :=
  ⟨(reconnect_backoff_sequence initialClient 7 rfl rfl rfl).2.2.1,
   (reconnect_backoff_sequence initialClient 7 rfl rfl rfl).2.2.2.2⟩

/-- Stamping a message that already carries a nonzero (truthy) timestamp
leaves it unchanged. -/
lemma stampMessage_stamped (now k : ℕ) (m : WSMessage)
    (h : m.timestamp = some (k + 1)) : stampMessage now m = m := by
  unfold stampMessage
  rw [h]
  rfl

/-- While the socket is not open, `send` transmits nothing and appends
each stamped message to the queue in submission order. -/
lemma sendAll_not_open (ms : List WSMessage) :
    ∀ (c : WebSocketClient) (now : ℕ), c.ws ≠ some true →
      c.sendAll now ms =
        ({ c with messageQueue := c.messageQueue ++ ms.map (stampMessage now) },
          []) := by
  induction ms with
  | nil =>
    intro c now _
    simp [WebSocketClient.sendAll]
  | cons m rest ih =>
    intro c now h
    rw [WebSocketClient.sendAll]
    simp only [WebSocketClient.send, if_neg h]
    rw [ih { c with messageQueue := c.messageQueue ++ [stampMessage now m] }
      now h]
    simp [List.append_assoc]

/-- While the socket is open, `send` transmits each stamped message at
once, in order, touching no state. -/
lemma sendAll_open (ms : List WSMessage) :
    ∀ (c : WebSocketClient) (now : ℕ), c.ws = some true →
      c.sendAll now ms = (c, ms.map (stampMessage now)) := by
  induction ms with
  | nil => intro c now _; simp [WebSocketClient.sendAll]
  | cons m rest ih =>
    intro c now h
    rw [WebSocketClient.sendAll]
    simp only [WebSocketClient.send, if_pos h]
    rw [ih c now h]
    simp

/-- Flushing with an open socket empties the queue and transmits every
queued message, stamped, in FIFO order. -/
lemma flushMessageQueue_open (c : WebSocketClient) (now : ℕ)
    (h : c.ws = some true) :
    c.flushMessageQueue now =
      ({ c with messageQueue := [] },
        c.messageQueue.map (stampMessage now)) := by
  unfold WebSocketClient.flushMessageQueue
  by_cases hq : c.messageQueue = []
  · rw [if_neg (by simp [hq])]
    have heta : ({ c with messageQueue := [] } : WebSocketClient) = c := by
      rw [← hq]
    simp [hq, heta]
  · rw [if_pos (by simpa using List.length_pos.mpr hq)]
    rw [sendAll_open c.messageQueue { c with messageQueue := [] } now h]

/-- The open event: the client becomes connected with a zeroed attempt
counter and an empty queue, transmitting the stamped queue contents. -/
lemma openEvent_eq (c : WebSocketClient) (now : ℕ) :
    c.openEvent now =
      ({ c with
          ws := some true
          connectionState := ConnState.connected
          reconnectAttempts := 0
          messageQueue := [] },
        c.messageQueue.map (stampMessage now)) := by
  unfold WebSocketClient.openEvent
  rw [flushMessageQueue_open _ now rfl]

/-- Claim C2: messages passed to `send` while the channel is not open are
all queued (none transmitted); when the connection then opens, the flush
transmits exactly those messages, in submission order, with no
duplication and no drop, leaving the queue empty.  (Messages already
carry their send-time timestamps, so the flush re-sends them verbatim.) -/
theorem queued_messages_delivered_in_order (c : WebSocketClient)
    (ms : List WSMessage) (now now2 : ℕ)
    (hws : c.ws ≠ some true) (hq : c.messageQueue = [])
    (hts : ∀ m ∈ ms, ∃ k, m.timestamp = some (k + 1)) :
    (c.sendAll now ms).2 = [] ∧
    ((c.sendAll now ms).1.openEvent now2).2 = ms ∧
    ((c.sendAll now ms).1.openEvent now2).1.messageQueue = [] := by
  have hstamp : ∀ n : ℕ, ms.map (stampMessage n) = ms := by
    intro n
    conv_rhs => rw [← List.map_id ms]
    apply List.map_congr_left
    intro m hm
    obtain ⟨k, hk⟩ := hts m hm
    rw [stampMessage_stamped n k m hk]
    rfl
  rw [sendAll_not_open ms c now hws, hq, List.nil_append, hstamp now]
  refine ⟨rfl, ?_, ?_⟩
  · rw [openEvent_eq]
    exact hstamp now2
  · rw [openEvent_eq]

/-- The three concrete messages of the C2 witness. -/
def wsMsgs : List WSMessage := [⟨1, 10, some 5⟩, ⟨2, 20, some 6⟩, ⟨3, 30, some 7⟩]

/-- Witness for C2: three messages sent on a fresh (disconnected) client
are all queued and then delivered exactly once, in order, by the open
event. -/
theorem queued_messages_delivered_in_order_witness :
    (initialClient.sendAll 42 wsMsgs).2 = [] ∧
    ((initialClient.sendAll 42 wsMsgs).1.openEvent 50).2 = wsMsgs ∧
    ((initialClient.sendAll 42 wsMsgs).1.openEvent 50).1.messageQueue = [] :=
  queued_messages_delivered_in_order initialClient wsMsgs 42 50 (by decide) rfl
    (by
      intro m hm
      fin_cases hm
      · exact ⟨4, rfl⟩
      · exact ⟨5, rfl⟩
      · exact ⟨6, rfl⟩)

/-- One-step unfolding of `runVAD`. -/
lemma runVAD_cons (v : VoiceActivityDetector) (t : TickIn) (ts : List TickIn) :
    runVAD v (t :: ts) =
      ((runVAD (v.analyzeAudio t).vad ts).1,
        (v.analyzeAudio t).speechStartFired ||
          (runVAD (v.analyzeAudio t).vad ts).2.1,
        (v.analyzeAudio t).speechEndFired ||
          (runVAD (v.analyzeAudio t).vad ts).2.2.1,
        (v.analyzeAudio t).updateFired ||
          (runVAD (v.analyzeAudio t).vad ts).2.2.2) := rfl

/-- A run of analysis ticks that stays inside the calibration phase (the
sample counter never reaches the target) fires no callback, keeps the
calibrating state, and leaves the speaking flag untouched. -/
lemma runVAD_calibrating (ts : List TickIn) :
    ∀ v : VoiceActivityDetector, v.state = VADState.calibrating →
      v.calibrationSamples + ts.length < v.calibrationTarget →
      (runVAD v ts).1.isSpeaking = v.isSpeaking ∧
      (runVAD v ts).1.state = VADState.calibrating ∧
      (runVAD v ts).2.1 = false ∧
      (runVAD v ts).2.2.1 = false ∧
      (runVAD v ts).2.2.2 = false := by
  induction ts with
  | nil => intro v h1 _; exact ⟨rfl, h1, rfl, rfl, rfl⟩
  | cons t ts ih =>
    intro v h1 h2
    have hlt : ¬ v.calibrationTarget ≤ v.calibrationSamples + 1 := by
      simp only [List.length_cons] at h2
      omega
    have hupd : v.updateCalibration t.rms t.freq =
        { v with
            noiseFloorRMS := v.noiseFloorRMS + t.rms
            noiseFloorFrequency := v.noiseFloorFrequency.mapIdx
              (fun i a => a + ((t.freq.getD i 0 : ℕ) : ℚ))
            calibrationSamples := v.calibrationSamples + 1 } := by
      unfold VoiceActivityDetector.updateCalibration
      rw [if_neg hlt]
    have hstep : v.analyzeAudio t =
        ⟨v.updateCalibration t.rms t.freq, false, false, false⟩ := by
      unfold VoiceActivityDetector.analyzeAudio
      rw [if_pos h1]
    rw [runVAD_cons, hstep, hupd]
    obtain ⟨i1, i2, i3, i4, i5⟩ := ih
      { v with
          noiseFloorRMS := v.noiseFloorRMS + t.rms
          noiseFloorFrequency := v.noiseFloorFrequency.mapIdx
            (fun i a => a + ((t.freq.getD i 0 : ℕ) : ℚ))
          calibrationSamples := v.calibrationSamples + 1 }
      h1
      (by
        show v.calibrationSamples + 1 + ts.length < v.calibrationTarget
        simp only [List.length_cons] at h2
        omega)
    exact ⟨i1, i2, i3, i4, i5⟩

/-- Claim C10: calling `recalibrate` while detecting and speaking freezes
the speaking flag for the whole calibration phase: every analysis tick of
a run that stays below the sample target returns before the speech state
machine and the update callback, so `getIsSpeaking` stays `true` and no
speech-start, speech-end, or level-update callback fires while the
detector is still calibrating. -/
theorem calibrating_freezes_speaking (v : VoiceActivityDetector)
    (ts : List TickIn) (hdet : v.state = VADState.detecting)
    (hspk : v.isSpeaking = true) (hlen : ts.length < v.calibrationTarget) :
    (runVAD v.recalibrate ts).1.isSpeaking = true ∧
    (runVAD v.recalibrate ts).1.state = VADState.calibrating ∧
    (runVAD v.recalibrate ts).2.1 = false ∧
    (runVAD v.recalibrate ts).2.2.1 = false ∧
    (runVAD v.recalibrate ts).2.2.2 = false := by
  have hre : v.recalibrate =
      { v with state := VADState.calibrating, calibrationSamples := 0 } := by
    unfold VoiceActivityDetector.recalibrate
    rw [if_pos hdet]
  obtain ⟨i1, i2, i3, i4, i5⟩ := runVAD_calibrating ts v.recalibrate
    (by rw [hre]) (by rw [hre]; dsimp only; omega)
  refine ⟨?_, i2, i3, i4, i5⟩
  rw [i1, hre]
  exact hspk

/-- The detecting, speaking detector of the C10 witness. -/
def c10Detector : VoiceActivityDetector :=
  { initialVAD defaultVADConfig with
      state := VADState.detecting
      isSpeaking := true }

/-- Witness for C10 on two concrete calibration ticks. -/
theorem calibrating_freezes_speaking_witness :
    (runVAD c10Detector.recalibrate [⟨1, [], 5⟩, ⟨0, [], 35⟩]).1.isSpeaking = true ∧
    (runVAD c10Detector.recalibrate [⟨1, [], 5⟩, ⟨0, [], 35⟩]).1.state =
      VADState.calibrating ∧
    (runVAD c10Detector.recalibrate [⟨1, [], 5⟩, ⟨0, [], 35⟩]).2.1 = false ∧
    (runVAD c10Detector.recalibrate [⟨1, [], 5⟩, ⟨0, [], 35⟩]).2.2.1 = false ∧
    (runVAD c10Detector.recalibrate [⟨1, [], 5⟩, ⟨0, [], 35⟩]).2.2.2 = false :=
  calibrating_freezes_speaking c10Detector [⟨1, [], 5⟩, ⟨0, [], 35⟩] rfl rfl
    (by decide)

/-- Invariant behind the speech-start debounce: starting from a detecting,
non-speaking detector, if no flagged tick ever lies a full
`minimumSpeechDuration` after the first flagged tick of its contiguous
run (with `speechStartTime` carrying the start of any run already in
progress), then no tick of the run fires the speech-start callback. -/
lemma runVAD_noFire (ts : List TickIn) :
    ∀ v : VoiceActivityDetector, v.state = VADState.detecting →
      v.isSpeaking = false →
      noLongFlaggedRun v.voiceDetected v.config.minimumSpeechDuration
        v.speechStartTime ts = true →
      (runVAD v ts).2.1 = false := by
  induction ts with
  | nil => intro v _ _ _; rfl
  | cons t ts ih =>
    intro v h1 h2 h3
    have hana : v.analyzeAudio t = v.detectStep t := by
      unfold VoiceActivityDetector.analyzeAudio
      rw [if_neg (by simp [h1])]
    by_cases hd : v.voiceDetected t = true
    · rw [noLongFlaggedRun, if_pos hd, Bool.and_eq_true] at h3
      obtain ⟨h3a, h3b⟩ := h3
      by_cases hp : v.speechStartTime = 0
      · have hstep : v.detectStep t =
            ⟨{ v with speechStartTime := t.now }, false, false, true⟩ := by
          unfold VoiceActivityDetector.detectStep
          rw [if_pos hd, if_pos h2, if_pos hp]
        rw [runVAD_cons, hana, hstep]
        rw [if_pos hp] at h3b
        exact ih { v with speechStartTime := t.now } h1 h2 h3b
      · have hdec : decide (v.speechStartTime = 0) = false := by
          simp [hp]
        rw [hdec, Bool.false_or] at h3a
        have hlt : t.now - v.speechStartTime < v.config.minimumSpeechDuration :=
          of_decide_eq_true h3a
        have hstep : v.detectStep t = ⟨v, false, false, true⟩ := by
          unfold VoiceActivityDetector.detectStep
          rw [if_pos hd, if_pos h2, if_neg hp, if_neg (not_le.mpr hlt)]
        rw [runVAD_cons, hana, hstep]
        rw [if_neg hp] at h3b
        exact ih v h1 h2 h3b
    · have hstep : v.detectStep t =
          ⟨{ v with speechStartTime := 0 }, false, false, true⟩ := by
        unfold VoiceActivityDetector.detectStep
        rw [if_neg hd, if_neg (by simp [h2])]
      rw [noLongFlaggedRun, if_neg hd] at h3
      rw [runVAD_cons, hana, hstep]
      exact ih { v with speechStartTime := 0 } h1 h2 h3

/-- Claim C7: while detecting and not yet speaking, the speech-start
callback fires only after the voice-detected condition has held on
contiguous ticks spanning at least `minimumSpeechDuration` (formally: if
no contiguous flagged run spans that duration, no speech-start fires);
in particular a single flagged tick followed by a non-flagged tick never
fires speech-start. -/
theorem speech_start_requires_min_duration (v : VoiceActivityDetector)
    (ts : List TickIn) (hdet : v.state = VADState.detecting)
    (hspk : v.isSpeaking = false) (hstart : v.speechStartTime = 0)
    (hrun : noLongFlaggedRun v.voiceDetected v.config.minimumSpeechDuration
      0 ts = true) :
    (runVAD v ts).2.1 = false ∧
    (∀ t1 t2 : TickIn, v.voiceDetected t2 = false →
      (runVAD v [t1, t2]).2.1 = false) := by
  constructor
  · apply runVAD_noFire ts v hdet hspk
    rw [hstart]
    exact hrun
  · intro t1 t2 ht2
    apply runVAD_noFire [t1, t2] v hdet hspk
    rw [hstart]
    by_cases hd1 : v.voiceDetected t1 = true <;>
      simp [noLongFlaggedRun, hd1, ht2]

/-- The detecting detector of the C7 witness: unit speech-band SNR, a
single-bin speech band and a calibrated speech-band baseline of `1/2`. -/
def c7Detector : VoiceActivityDetector :=
  { initialVAD { defaultVADConfig with
      speechBandSNR := 1
      speechBandRange := (0, 12000)
      noiseBandRange := (0, 0) } with
    state := VADState.detecting
    speechBandNoiseFloor := 1/2 }

/-- Witness for C7: a flagged tick followed by a non-flagged tick (the
isolated-click shape) fires no speech-start. -/
theorem speech_start_requires_min_duration_witness :
    c7Detector.voiceDetected ⟨1/2, [255], 1000⟩ = true ∧
    c7Detector.voiceDetected ⟨0, [0], 1030⟩ = false ∧
    (runVAD c7Detector [⟨1/2, [255], 1000⟩, ⟨0, [0], 1030⟩]).2.1 = false := by
  refine ⟨?_, ?_, ?_⟩
  · norm_num [VoiceActivityDetector.voiceDetected,
      VoiceActivityDetector.calculateBandEnergy, bandEnergy, c7Detector,
      initialVAD, defaultVADConfig, List.range']
  · norm_num [VoiceActivityDetector.voiceDetected,
      VoiceActivityDetector.calculateBandEnergy, bandEnergy, c7Detector,
      initialVAD, defaultVADConfig, List.range']
  · exact (speech_start_requires_min_duration c7Detector [] rfl rfl rfl rfl).2
      ⟨1/2, [255], 1000⟩ ⟨0, [0], 1030⟩
      (by norm_num [VoiceActivityDetector.voiceDetected,
        VoiceActivityDetector.calculateBandEnergy, bandEnergy, c7Detector,
        initialVAD, defaultVADConfig, List.range'])
